import Mathlib

/-!
Verification of the abstractllm repository: a shallow embedding of
`src/abstractllm/interface.py` (the `AbstractLLMInterface` base class and its
output-handler chain) and `src/query.py` (the CLI script), together with
theorems settling the specification claims about configuration resolution,
output handling, generation response shape, capability defaults, the CLI
error path, and the debug-log writer.

Python dictionaries of configuration parameters are embedded as association
lists `List (String × ConfigValue)` with first-match lookup; Python
exceptions are embedded with `Except String`; generators are embedded as the
lists of chunks they yield.
-/

set_option autoImplicit false

/-- A configuration parameter value: per the spec the resolved configuration
maps parameter names to strings, numbers or booleans. -/
inductive ConfigValue where
  | s (x : String)
  | n (x : Int)
  | b (x : Bool)
  deriving DecidableEq, Repr

/-- A parameter mapping (a Python dict of parameters), embedded as an
association list; `List.lookup` returns the first binding of a key. -/
abbrev Params := List (String × ConfigValue)

/-- Merge two parameter layers: bindings of `overrides` shadow bindings of
`base` (the override layer is consulted first by `List.lookup`). -/
def mergeParams (base overrides : Params) : Params :=
  overrides ++ base

/-- Modelled from the spec: `ConfigurationManager`
(`abstractllm/utils/config.py`) is not part of the sources under
verification; per the spec it holds the provider defaults and the
constructor-supplied (and later updated) instance configuration, and "merges
three layers of parameters (instance defaults, constructor-supplied config,
per-call keyword overrides) into a single resolved parameter set per call". -/
structure ConfigurationManager where
  provider_defaults : Params
  config : Params
  deriving DecidableEq, Repr

/-- The per-call override layer of `get_provider_params`: the keyword
overrides together with the optional per-call `system_prompt` argument,
which (per the `generate` docstring) overrides the system prompt in the
config; an explicit `system_prompt` key in the keyword overrides is
consulted first. -/
def callLayer (kwargs : Params) (system_prompt : Option ConfigValue) : Params :=
  match system_prompt with
  | some sp => mergeParams [("system_prompt", sp)] kwargs
  | none => kwargs

/-- Modelled from the spec: the resolution performed by
`ConfigurationManager.get_provider_params` — "merges per-call overrides,
instance-level configuration, and provider defaults into the parameter set
each backend actually receives", with "later layers override earlier ones".
The result is a fresh mapping; "lifetime is one call". -/
def ConfigurationManager.get_provider_params (cm : ConfigurationManager)
    (kwargs : Params) (system_prompt : Option ConfigValue) : Params :=
  mergeParams (mergeParams cm.provider_defaults cm.config)
    (callLayer kwargs system_prompt)

/-- Modelled from the spec: `ConfigurationManager.get_config` returns the
current instance configuration. -/
def ConfigurationManager.get_config (cm : ConfigurationManager) : Params :=
  cm.config

/-- Modelled from the spec: `get_provider_params` as a state transformer on
the manager, making explicit that building the resolved per-call mapping is
the only effect ("lifetime is one call"; the manager stores nothing new). -/
def ConfigurationManager.get_provider_params_run (cm : ConfigurationManager)
    (kwargs : Params) (system_prompt : Option ConfigValue) :
    Params × ConfigurationManager :=
  (cm.get_provider_params kwargs system_prompt, cm)

/-- Model output (`Union[str, Generator[str, None, None]]` in
`interface.py`): either a complete string or a generator, embedded as the
list of chunks it yields. -/
inductive Output where
  | str (text : String)
  | gen (chunks : List String)
  deriving DecidableEq, Repr

/-- An output handler (`OutputHandler` in `interface.py`): `handle` observes
the output and may raise an exception (`Except.error`). The `name` field
embeds `handler.__class__.__name__`, used in the error log. -/
structure OutputHandler where
  name : String
  handle : Output → Except String Unit

/-- A log record emitted by `_handle_output` when a handler raises:
`logger.error(f"Output handler ... failed: ...")`. -/
inductive LogEntry where
  | handlerError (handlerName : String) (msg : String)
  deriving DecidableEq, Repr

/-- The loop of `AbstractLLMInterface._handle_output`
(`interface.py` lines 76-83): for each handler, try `handler.handle(output)`
and, if it raises, catch the exception and log it, then continue with the
remaining handlers. Returns the invocation order (handler names, one entry
per call) and the error log. -/
def processHandlers : List OutputHandler → Output → List String × List LogEntry
  | [], _ => ([], [])
  | h :: rest, o =>
    let entry : List String × List LogEntry :=
      match h.handle o with
      | Except.ok _ => ([h.name], [])
      | Except.error e => ([h.name], [LogEntry.handlerError h.name e])
    let tail := processHandlers rest o
    (entry.1 ++ tail.1, entry.2 ++ tail.2)

/-- The state of an `AbstractLLMInterface` instance (`interface.py` lines
32-43): a `ConfigurationManager` built from the constructor config, and the
list of registered output handlers. -/
structure AbstractLLMInterface where
  config_manager : ConfigurationManager
  output_handlers : List OutputHandler

/-- `AbstractLLMInterface.__init__` (`interface.py` lines 32-43): the
handler list starts empty; the manager is built from the constructor config
(the provider defaults live inside the manager, which is spec-modelled). -/
def mkInterface (defaults config : Params) : AbstractLLMInterface :=
  { config_manager := { provider_defaults := defaults, config := config },
    output_handlers := [] }

/-- `AbstractLLMInterface.add_output_handler` (`interface.py` line 51):
appends the handler to `self._output_handlers`. -/
def AbstractLLMInterface.add_output_handler (s : AbstractLLMInterface)
    (h : OutputHandler) : AbstractLLMInterface :=
  { s with output_handlers := s.output_handlers ++ [h] }

/-- `AbstractLLMInterface._handle_output` (`interface.py` lines 66-86):
processes the output through all handlers (each call guarded by
try/except, see `processHandlers`) and returns the original output. The
outer `Except` is the channel an uncaught exception would propagate on. -/
def AbstractLLMInterface.handleOutput (s : AbstractLLMInterface)
    (output : Output) :
    Except String ((List String × List LogEntry) × Output) :=
  let t := processHandlers s.output_handlers output
  Except.ok (t, output)

/-- `AbstractLLMInterface.get_config` (`interface.py` lines 176-183):
returns the manager's current configuration. -/
def AbstractLLMInterface.get_config (s : AbstractLLMInterface) : Params :=
  s.config_manager.get_config

/-- `AbstractLLMInterface.get_provider_params` (`interface.py` lines
198-209): delegates to the manager; as a state transformer it returns the
resolved mapping together with the post-call instance state. -/
def AbstractLLMInterface.get_provider_params (s : AbstractLLMInterface)
    (kwargs : Params) (system_prompt : Option ConfigValue) :
    Params × AbstractLLMInterface :=
  let r := s.config_manager.get_provider_params_run kwargs system_prompt
  (r.1, { s with config_manager := r.2 })

/-- A concrete handler whose `handle` always raises, for witnesses. -/
def raisingHandler : OutputHandler :=
  { name := "RaisingHandler", handle := fun _ => Except.error "boom" }

/-- A concrete handler whose `handle` always succeeds, for witnesses. -/
def okHandler : OutputHandler :=
  { name := "OkHandler", handle := fun _ => Except.ok () }

/-- A concrete instance with a raising handler registered before a
succeeding one, for witnesses. -/
def interfaceWithBadHandler : AbstractLLMInterface :=
  ((mkInterface [] []).add_output_handler raisingHandler).add_output_handler
    okHandler

/-- A generation request: prompt text, optional system-prompt override,
optional file references, and extra per-call overrides (`generate`'s
signature, `interface.py` lines 88-94). -/
structure GenerateRequest where
  prompt : String
  system_prompt : Option String
  files : List String
  kwargs : Params

/-- The return shape of `generate` (`Union[str, Generator[str, None,
None]]`): a complete string, or a synchronous generator embedded as the
list of chunks it yields. -/
inductive GenerateResult where
  | complete (text : String)
  | streamed (chunks : List String)
  deriving DecidableEq, Repr

/-- The return shape of `generate_async` (`Union[str, AsyncGenerator[str,
None]]`): a complete string, or an asynchronous generator embedded as the
list of chunks it yields. -/
inductive AsyncGenerateResult where
  | complete (text : String)
  | streamed (chunks : List String)
  deriving DecidableEq, Repr

/-- Discriminator: the result is a single complete string. -/
def GenerateResult.isCompleteString : GenerateResult → Bool
  | GenerateResult.complete _ => true
  | GenerateResult.streamed _ => false

/-- Discriminator: the result is a generator yielding text chunks. -/
def GenerateResult.isChunkGenerator : GenerateResult → Bool
  | GenerateResult.complete _ => false
  | GenerateResult.streamed _ => true

/-- Discriminator: the result is a single complete string. -/
def AsyncGenerateResult.isCompleteString : AsyncGenerateResult → Bool
  | AsyncGenerateResult.complete _ => true
  | AsyncGenerateResult.streamed _ => false

/-- Discriminator: the result is an async generator yielding text chunks. -/
def AsyncGenerateResult.isChunkGenerator : AsyncGenerateResult → Bool
  | AsyncGenerateResult.complete _ => false
  | AsyncGenerateResult.streamed _ => true

/-- Modelled from the spec: `generate` is abstract in `interface.py` (lines
88-113) and the concrete providers are not part of the sources under
verification; per its documented contract — "If stream=False: The complete
generated response as a string. If stream=True: A generator yielding
response chunks" — the response shape is determined by the streaming flag.
`backend` abstracts the provider's chunk production. -/
def generate (backend : GenerateRequest → List String)
    (req : GenerateRequest) (stream : Bool) : GenerateResult :=
  if stream then GenerateResult.streamed (backend req)
  else GenerateResult.complete (String.join (backend req))

/-- Modelled from the spec: `generate_async` is abstract in `interface.py`
(lines 115-140); per its documented contract the response is a complete
string when stream=False and an async generator of chunks when
stream=True. -/
def generate_async (backend : GenerateRequest → List String)
    (req : GenerateRequest) (stream : Bool) : AsyncGenerateResult :=
  if stream then AsyncGenerateResult.streamed (backend req)
  else AsyncGenerateResult.complete (String.join (backend req))

/-- The capability keys of `abstractllm.enums.ModelCapability` used by the
default `get_capabilities`. -/
inductive ModelCapability where
  | STREAMING
  | MAX_TOKENS
  | SYSTEM_PROMPT
  | ASYNC
  | FUNCTION_CALLING
  | VISION
  deriving DecidableEq, Repr

/-- A capability value: a boolean flag or a numeric limit. -/
inductive CapabilityValue where
  | b (x : Bool)
  | n (x : Nat)
  deriving DecidableEq, Repr

/-- `AbstractLLMInterface.get_capabilities` (`interface.py` lines 142-156):
the default, non-overridden capability dictionary. -/
def AbstractLLMInterface.get_capabilities (s : AbstractLLMInterface) :
    List (ModelCapability × CapabilityValue) :=
  [(ModelCapability.STREAMING, CapabilityValue.b false),
   (ModelCapability.MAX_TOKENS, CapabilityValue.n 2048),
   (ModelCapability.SYSTEM_PROMPT, CapabilityValue.b false),
   (ModelCapability.ASYNC, CapabilityValue.b false),
   (ModelCapability.FUNCTION_CALLING, CapabilityValue.b false),
   (ModelCapability.VISION, CapabilityValue.b false)]

/-- The observable outcome of running the CLI script's try-block: the
lines printed by the block, the exit status (`some 1` exactly when
`sys.exit(1)` ran), and how many times `llm.generate` was invoked. -/
structure MainOutcome where
  printed : List String
  exitCode : Option Nat
  generateCalls : Nat
  deriving DecidableEq, Repr

/-- The `"=" * 40` separator printed around the response. -/
def separatorLine : String :=
  String.mk (List.replicate 40 '=')

/-- `main`'s provider-creation/generation block (`query.py` lines 81-180),
with the external effects abstracted: `create` embeds
`create_llm(args.provider, **config)` and `gen` embeds
`llm.generate(prompt=..., files=...)`; either may raise. The body runs once
inside `try:`; `except Exception as e:` prints the error message and calls
`sys.exit(1)`. There is no retry and no fallback: `gen` is consulted at
most once. -/
def runMainBlock (provider : String) (create : Except String Nat)
    (gen : Nat → Except String String) : MainOutcome :=
  match create with
  | Except.error e =>
    { printed := ["\nError: " ++ e], exitCode := some 1,
      generateCalls := 0 }
  | Except.ok llm =>
    let pre := ["\nSending request to " ++ provider ++ "..."]
    match gen llm with
    | Except.error e =>
      { printed := pre ++ ["\nError: " ++ e], exitCode := some 1,
        generateCalls := 1 }
    | Except.ok resp =>
      { printed := pre ++ ["\nResponse from " ++ provider ++ ":",
          separatorLine, resp, separatorLine],
        exitCode := none, generateCalls := 1 }

/-- The record stored under the "data_debug" key by `write_debug_info`
(`query.py` lines 45-50): length, first and last 50 characters of the
base64 data, and its mime type. -/
structure DataDebug where
  length : Nat
  start : String
  «end» : String
  mime_type : String
  deriving DecidableEq, Repr

/-- Python `data[-50:]`: the last 50 characters of a string (the whole
string when it is shorter). -/
def strTakeLast (n : Nat) (s : String) : String :=
  s.drop (s.length - n)

/-- An image source dict (`{"type": ..., "media_type": ..., "data": ...}`);
`data_debug` embeds the presence of the "data_debug" key, absent (`none`)
until `write_debug_info` assigns it. -/
structure ImageSource where
  type : String
  media_type : String
  data : String
  data_debug : Option DataDebug
  deriving DecidableEq, Repr

/-- One element of a message's "content" list (`query.py` lines 142-149): a
text block or an image block. -/
inductive ContentItem where
  | text (t : String)
  | image (source : ImageSource)
  deriving DecidableEq, Repr

/-- A message dict of the payload (`query.py` lines 154-157). -/
structure Message where
  role : String
  content : List ContentItem
  deriving DecidableEq, Repr

/-- The request payload built by `main` (`query.py` lines 152-161). -/
structure Payload where
  model : String
  messages : List Message
  max_tokens : ConfigValue
  temperature : ConfigValue
  stream : Bool
  deriving DecidableEq, Repr

/-- The assignment `content["source"]["data_debug"] = ...` performed by
`write_debug_info` on a base64 image source (`query.py` lines 44-50). -/
def addDataDebug (src : ImageSource) : ImageSource :=
  { src with data_debug := some {
      length := src.data.length,
      start := src.data.take 50,
      «end» := strTakeLast 50 src.data,
      mime_type := src.media_type } }

/-- The caller's payload after `write_debug_info(provider, payload)`
returns (`query.py` lines 29-59). `debug_payload = payload.copy()` is a
SHALLOW copy: the list under "messages", the message dicts, the content
dicts and the source dicts reached through `debug_payload` are the very
objects of the caller's payload, so the loop's assignment
`content["source"]["data_debug"] = ...` mutates the caller's payload too.
This function computes the caller-visible payload after the call under
those Python aliasing semantics. -/
def write_debug_info_payload_after (p : Payload) : Payload :=
  { p with messages := p.messages.map fun m =>
      { m with content := m.content.map fun c =>
          match c with
          | ContentItem.image src =>
            if src.type = "base64" then
              ContentItem.image (addDataDebug src)
            else ContentItem.image src
          | ContentItem.text t => ContentItem.text t } }

/-- The record serialized to logs/request.json (`query.py` lines 52-58). -/
structure DebugInfo where
  provider : String
  payload : Payload
  deriving DecidableEq, Repr

/-- `write_debug_info` (`query.py` lines 29-59): returns the debug record
written to logs/request.json together with the caller's payload after the
call. Because the copy is shallow, the written payload and the caller's
post-call payload coincide structurally. -/
def write_debug_info (provider : String) (p : Payload) :
    DebugInfo × Payload :=
  let after := write_debug_info_payload_after p
  ({ provider := provider, payload := after }, after)

/-- A concrete base64 image source, as `MediaFactory` produces for an
attached image file. -/
def base64ImageSource : ImageSource :=
  { type := "base64", media_type := "image/jpeg",
    data := "aGVsbG8=", data_debug := none }

/-- The user message of `base64ImagePayload`: a base64 image content block
followed by the prompt text block. -/
def base64UserMessage : Message :=
  { role := "user",
    content := [ContentItem.image base64ImageSource,
      ContentItem.text "What is in this image?"] }

/-- A concrete payload whose single message carries a base64 image content
block, as `main --debug` builds with an image file attached. -/
def base64ImagePayload : Payload :=
  { model := "claude-3-5-haiku-20241022",
    messages := [base64UserMessage],
    max_tokens := ConfigValue.n 2048,
    temperature := ConfigValue.n 1,
    stream := false }

-- Theorems

/-- First-match lookup distributes over append: the left (override) layer is
consulted first. -/
theorem lookup_append (k : String) (a b : Params) :
    List.lookup k (a ++ b) =
      (List.lookup k a).orElse (fun _ => List.lookup k b) := by
  induction a with
  | nil => simp [List.lookup]
  | cons p t ih =>
    cases h : k == p.1 <;> simp [List.lookup, h, ih]

/-- C1: configuration resolution merges three layers with
later-overrides-earlier precedence: any parameter in the per-call overrides
(`callLayer`, the kwargs plus the per-call system prompt) takes precedence
over the instance configuration, which takes precedence over the provider
defaults; in particular a parameter supplied in kwargs resolves to its
kwargs value. The resolved mapping is computed by the function
`ConfigurationManager.get_provider_params` of exactly those three layers,
hence deterministic. -/
theorem get_provider_params_precedence (cm : ConfigurationManager)
    (kwargs : Params) (sp : Option ConfigValue) (k : String) :
    (∀ v, List.lookup k kwargs = some v →
      List.lookup k (cm.get_provider_params kwargs sp) = some v) ∧
    List.lookup k (cm.get_provider_params kwargs sp) =
      ((List.lookup k (callLayer kwargs sp)).orElse fun _ =>
        (List.lookup k cm.config).orElse fun _ =>
          List.lookup k cm.provider_defaults) := by
  have hmain : List.lookup k (cm.get_provider_params kwargs sp) =
      ((List.lookup k (callLayer kwargs sp)).orElse fun _ =>
        (List.lookup k cm.config).orElse fun _ =>
          List.lookup k cm.provider_defaults) := by
    unfold ConfigurationManager.get_provider_params mergeParams
    rw [lookup_append, lookup_append]
  refine ⟨fun v hv => ?_, hmain⟩
  have hcall : List.lookup k (callLayer kwargs sp) = some v := by
    cases sp with
    | none => exact hv
    | some x =>
      unfold callLayer mergeParams
      rw [lookup_append, hv]
      rfl
  rw [hmain, hcall]
  rfl

/-- Witness for C1 at a concrete input: a temperature supplied in the
per-call kwargs wins over both the instance config and the defaults. -/
theorem get_provider_params_precedence_witness :
    List.lookup "temperature"
        [("temperature", ConfigValue.n 1)] = some (ConfigValue.n 1) ∧
    List.lookup "temperature"
      (ConfigurationManager.get_provider_params
        { provider_defaults := [("temperature", ConfigValue.n 7),
                                ("model", ConfigValue.s "gpt-4o")],
          config := [("temperature", ConfigValue.n 3)] }
        [("temperature", ConfigValue.n 1)] none) = some (ConfigValue.n 1) :=
  ⟨by decide,
   (get_provider_params_precedence
      { provider_defaults := [("temperature", ConfigValue.n 7),
                              ("model", ConfigValue.s "gpt-4o")],
        config := [("temperature", ConfigValue.n 3)] }
      [("temperature", ConfigValue.n 1)] none "temperature").1
     (ConfigValue.n 1) (by decide)⟩

/-- The invocation-order component of `processHandlers`: every registered
handler is invoked exactly once, in list order, whether or not its `handle`
raises. -/
theorem processHandlers_fst (hs : List OutputHandler) (o : Output) :
    (processHandlers hs o).1 = hs.map (fun h => h.name) := by
  induction hs with
  | nil => rfl
  | cons h t ih =>
    cases hh : h.handle o <;> simp [processHandlers, hh, ih]

/-- When the i-th handler raises, its error is logged by the loop. -/
theorem processHandlers_logs_mem (o : Output) (e : String)
    (hs : List OutputHandler) :
    ∀ (i : Nat) (hi : i < hs.length),
      (hs.get ⟨i, hi⟩).handle o = Except.error e →
      LogEntry.handlerError (hs.get ⟨i, hi⟩).name e ∈
        (processHandlers hs o).2 := by
  induction hs with
  | nil => intro i hi; simp at hi
  | cons h t ih =>
    intro i hi hraise
    cases i with
    | zero =>
      have hraise0 : h.handle o = Except.error e := hraise
      show LogEntry.handlerError h.name e ∈ (processHandlers (h :: t) o).2
      simp [processHandlers, hraise0]
    | succ j =>
      have hj : j < t.length := Nat.lt_of_succ_lt_succ hi
      have hraise2 : (t.get ⟨j, hj⟩).handle o = Except.error e := hraise
      have hmem := ih j hj hraise2
      simp only [List.get_eq_getElem] at hmem ⊢
      cases hh : h.handle o <;>
        simp [processHandlers, hh, hmem, List.getElem_cons_succ]

/-- C2: the output-handler chain does not alter the output: for every
output value (string or generator) and every instance — hence every list
of registered handlers, including handlers that raise — `_handle_output`
returns exactly the original output it was given. -/
theorem handleOutput_output_unchanged (s : AbstractLLMInterface)
    (o : Output) :
    ∃ trace, s.handleOutput o = Except.ok (trace, o) :=
  ⟨processHandlers s.output_handlers o, rfl⟩

/-- C3: a failing output handler never breaks the chain: if the i-th
registered handler raises, the exception is caught (the call still returns
normally, with the original output), every registered handler — in
particular every one after the failing one — is still invoked in order, and
the failure is logged. -/
theorem failing_handler_does_not_break_chain (s : AbstractLLMInterface)
    (o : Output) (i : Nat) (hi : i < s.output_handlers.length) (e : String)
    (hraise : (s.output_handlers.get ⟨i, hi⟩).handle o = Except.error e) :
    ∃ logs,
      s.handleOutput o =
        Except.ok ((s.output_handlers.map (fun h => h.name), logs), o) ∧
      LogEntry.handlerError (s.output_handlers.get ⟨i, hi⟩).name e ∈
        logs := by
  refine ⟨(processHandlers s.output_handlers o).2, ?_,
    processHandlers_logs_mem o e s.output_handlers i hi hraise⟩
  have h2 := processHandlers_fst s.output_handlers o
  show Except.ok (processHandlers s.output_handlers o, o) = _
  rw [← h2]

/-- Witness for C3 at a concrete input: with a raising handler registered
first and a succeeding one second, the raising handler's exception is
caught, both handlers run in order, and the failure is logged. -/
theorem failing_handler_does_not_break_chain_witness :
    (interfaceWithBadHandler.output_handlers.get ⟨0, by decide⟩).handle
        (Output.str "hello") = Except.error "boom" ∧
    ∃ logs,
      interfaceWithBadHandler.handleOutput (Output.str "hello") =
        Except.ok ((["RaisingHandler", "OkHandler"], logs),
          Output.str "hello") ∧
      LogEntry.handlerError "RaisingHandler" "boom" ∈ logs :=
  ⟨rfl,
   failing_handler_does_not_break_chain interfaceWithBadHandler
     (Output.str "hello") 0 (by decide) "boom" rfl⟩

/-- Registering handlers by folding `add_output_handler` appends them in
call order. -/
theorem foldl_add_output_handler (hs : List OutputHandler)
    (s : AbstractLLMInterface) :
    (hs.foldl AbstractLLMInterface.add_output_handler s).output_handlers =
      s.output_handlers ++ hs := by
  induction hs generalizing s with
  | nil => simp
  | cons h t ih =>
    simp [List.foldl, ih, AbstractLLMInterface.add_output_handler]

/-- C6: handlers observe output in registration order: for every sequence
of `add_output_handler` calls on a fresh instance, `_handle_output` invokes
each currently registered handler exactly once, in the order the handlers
were added. -/
theorem handlers_invoked_in_registration_order (defaults config : Params)
    (hs : List OutputHandler) (o : Output) :
    ∃ logs,
      (hs.foldl AbstractLLMInterface.add_output_handler
          (mkInterface defaults config)).handleOutput o =
        Except.ok ((hs.map (fun h => h.name), logs), o) := by
  refine ⟨(processHandlers (hs.foldl AbstractLLMInterface.add_output_handler
    (mkInterface defaults config)).output_handlers o).2, ?_⟩
  have hlist : (hs.foldl AbstractLLMInterface.add_output_handler
      (mkInterface defaults config)).output_handlers = hs := by
    simpa [mkInterface] using
      foldl_add_output_handler hs (mkInterface defaults config)
  show Except.ok (processHandlers
    (hs.foldl AbstractLLMInterface.add_output_handler
      (mkInterface defaults config)).output_handlers o, o) = _
  rw [hlist, ← processHandlers_fst hs o]

/-- C4: the generation response shape is determined by the streaming flag:
for every backend and request, `generate` with stream=False returns a
single complete string and with stream=True returns a generator of text
chunks, and `generate_async` respectively a string or an async generator of
chunks. -/
theorem generate_shape_determined_by_stream
    (backend : GenerateRequest → List String) (req : GenerateRequest) :
    (generate backend req false).isCompleteString = true ∧
    (generate backend req true).isChunkGenerator = true ∧
    (generate_async backend req false).isCompleteString = true ∧
    (generate_async backend req true).isChunkGenerator = true :=
  ⟨rfl, rfl, rfl, rfl⟩

/-- C5: per-call overrides have one-call lifetime and do not persist: for
every instance and every kwargs/system_prompt arguments, calling
`get_provider_params` leaves the instance's stored configuration unchanged
— `get_config` returns the same mapping before and after the call. -/
theorem get_provider_params_leaves_config_unchanged
    (s : AbstractLLMInterface) (kwargs : Params)
    (system_prompt : Option ConfigValue) :
    ((s.get_provider_params kwargs system_prompt).2).get_config =
      s.get_config :=
  rfl

/-- C9: the default capability report is the fixed conservative dictionary
with streaming, system prompt, async, function calling and vision all
disabled and a 2048 max-token limit. -/
theorem get_capabilities_default (s : AbstractLLMInterface) :
    s.get_capabilities =
      [(ModelCapability.STREAMING, CapabilityValue.b false),
       (ModelCapability.MAX_TOKENS, CapabilityValue.n 2048),
       (ModelCapability.SYSTEM_PROMPT, CapabilityValue.b false),
       (ModelCapability.ASYNC, CapabilityValue.b false),
       (ModelCapability.FUNCTION_CALLING, CapabilityValue.b false),
       (ModelCapability.VISION, CapabilityValue.b false)] :=
  rfl

/-- C7: the CLI script has no failure recovery beyond propagating the
failure: whenever an exception is raised inside main's
provider-creation/generation block — whether in provider creation or in
generation — the script prints the error message and terminates with exit
status 1, and in every run generation is attempted at most once (no retry
or fallback). -/
theorem main_error_path (provider : String) (create : Except String Nat)
    (gen : Nat → Except String String) (e : String) :
    (create = Except.error e →
      runMainBlock provider create gen =
        { printed := ["\nError: " ++ e], exitCode := some 1,
          generateCalls := 0 }) ∧
    (∀ llm, create = Except.ok llm → gen llm = Except.error e →
      runMainBlock provider create gen =
        { printed := ["\nSending request to " ++ provider ++ "...",
            "\nError: " ++ e],
          exitCode := some 1, generateCalls := 1 }) ∧
    (runMainBlock provider create gen).generateCalls ≤ 1 := by
  refine ⟨fun hc => ?_, fun llm hc hg => ?_, ?_⟩
  · simp [runMainBlock, hc]
  · simp [runMainBlock, hc, hg]
  · cases create with
    | error e2 => simp [runMainBlock]
    | ok llm => cases hg : gen llm <;> simp [runMainBlock, hg]

/-- Witness for C7 at a concrete input: when provider creation raises
"boom", the block prints the error line and exits with status 1 without
invoking generation. -/
theorem main_error_path_witness :
    runMainBlock "openai" (Except.error "boom")
        (fun _ => Except.ok "hi") =
      { printed := ["\nError: " ++ "boom"], exitCode := some 1,
        generateCalls := 0 } :=
  (main_error_path "openai" (Except.error "boom")
    (fun _ => Except.ok "hi") "boom").1 rfl

/-- C8: the claim that `write_debug_info` leaves its payload argument
unchanged fails on payloads carrying base64 image content: evaluated at
such a payload, the caller's payload after the call differs from the
payload before — the image source dict has gained a "data_debug" entry,
because `payload.copy()` is a shallow copy and the loop mutates the shared
nested source dict. The code's own comment ("Create a copy for logging to
avoid modifying the original") states the intended behaviour the claim
describes, so this is a defect of the code, not of the claim. -/
theorem write_debug_info_mutates_base64_payload :
    (write_debug_info "anthropic" base64ImagePayload).2 ≠
      base64ImagePayload := by
  intro h
  have h2 := congrArg Payload.messages h
  simp [write_debug_info, write_debug_info_payload_after,
    base64ImagePayload, base64UserMessage, base64ImageSource,
    addDataDebug] at h2
